import Mathlib

/-!
Verification of the CRUD-workflow-with-derived-state pattern of the
MFarm-UI warehouse-management interface: the Income form's derived-total
calculator, cross-reference resolver, async uniqueness validation, the
nested create-supplier flow, both forms' submission handlers, and the
product-catalog row actions.
-/

namespace MFarm

/-- Rounding to 2 decimal places, as the source's
`parseFloat(x.toFixed(2))` on the exact value: multiply by 100, round to
the nearest integer, divide by 100. -/
def round2 (q : ℚ) : ℚ := (round (q * 100) : ℤ) / 100

/-- One line item of an income draft (source interface `Product` in
IncomeForm: product id, quantity, price).  Quantity and price are
`Option` because at runtime a row may have them undefined; the
calculator's `quantity * price || 0` then yields 0 (NaN is falsy). -/
structure LineItem where
  id : String
  quantity : Option ℚ
  price : Option ℚ
deriving Repr, DecidableEq

/-- Contribution of one line item to the subtotal, embedding the JS
expression `product.quantity * product.price || 0`: if either factor is
undefined the product is NaN, which `|| 0` turns into 0; a defined
product of 0 is also falsy and likewise yields 0 (the same value). -/
def itemContribution (it : LineItem) : ℚ :=
  match it.quantity, it.price with
  | some q, some p => q * p
  | _, _ => 0

/-- The reduce of the totalPrice effect:
`products.reduce((sum, product) => sum + (product.quantity * product.price || 0), 0)`. -/
def subtotal (items : List LineItem) : ℚ :=
  items.foldl (fun s it => s + itemContribution it) 0

/-- The totalPrice effect body: `subtotal * 1.18`, then
`parseFloat(totalWithTax.toFixed(2))`. -/
def computeTotalPrice (items : List LineItem) : ℚ :=
  round2 (subtotal items * (118 / 100))

/-- The income draft held by the form (source `IncomeData`). -/
structure IncomeDraft where
  id : String
  warehouse : String
  date : String
  products : List LineItem
  totalPrice : ℚ
  incomeType : String
  originType : String
  originId : String
  documents : List String
  status : Bool
deriving Repr, DecidableEq

/-- The totalPrice useEffect: writes the recomputed total back into the
draft record via `formik.setFieldValue("totalPrice", ...)`. -/
def recomputeTotal (d : IncomeDraft) : IncomeDraft :=
  { d with totalPrice := computeTotalPrice d.products }

/-- The form's initial draft (source `initialValues` of IncomeForm). -/
def initialIncomeDraft : IncomeDraft :=
  { id := ""
    warehouse := "AG001"
    date := ""
    products := []
    totalPrice := 0
    incomeType := ""
    originType := "supplier"
    originId := ""
    documents := []
    status := true }

lemma subtotal_go (f : LineItem → ℚ) (a : ℚ) (l : List LineItem) :
    l.foldl (fun s it => s + f it) a = a + (l.map f).sum := by
  induction l generalizing a with
  | nil => simp
  | cons x xs ih => simp [List.foldl_cons, ih, add_assoc]

lemma subtotal_eq_map_sum (l : List LineItem) :
    subtotal l = (l.map itemContribution).sum := by
  simpa using subtotal_go itemContribution 0 l

/-- Claim C1: for every line-item collection, the total written into the
draft equals round(sum over items of quantity×price, ×1.18, 2 decimals);
in particular [{qty:2, price:10}, {qty:1, price:5}] gives 29.5 and the
empty collection gives 0. -/
theorem C1_derived_total_formula :
    (∀ d : IncomeDraft,
        (recomputeTotal d).totalPrice
          = round2 ((d.products.map itemContribution).sum * (118 / 100)))
    ∧ (recomputeTotal
        { initialIncomeDraft with
            products := [⟨"p1", some 2, some 10⟩, ⟨"p2", some 1, some 5⟩] }).totalPrice
        = 59 / 2
    ∧ (recomputeTotal { initialIncomeDraft with products := [] }).totalPrice = 0 := by
  refine ⟨fun d => ?_, ?_, ?_⟩
  · simp [recomputeTotal, computeTotalPrice, subtotal_eq_map_sum]
  · simp only [recomputeTotal, computeTotalPrice, subtotal, itemContribution, List.foldl]
    norm_num [round2, round_eq]
  · simp only [recomputeTotal, computeTotalPrice, subtotal, List.foldl]
    norm_num [round2, round_eq]

/-- Claim C2: a line item whose quantity or price is missing contributes
0 to the total rather than producing an error or non-numeric result;
e.g. [{qty:3, price:undefined}] yields total 0. -/
theorem C2_missing_field_contributes_zero :
    (∀ it : LineItem, it.quantity = none ∨ it.price = none →
        itemContribution it = 0)
    ∧ computeTotalPrice [⟨"p", some 3, none⟩] = 0 := by
  constructor
  · intro it h
    rcases h with h | h <;> simp [itemContribution, h]
  · simp only [computeTotalPrice, subtotal, itemContribution, List.foldl]
    norm_num [round2, round_eq]

/-- Witness for C2 at the concrete item {qty:3, price:undefined}. -/
theorem C2_missing_field_contributes_zero_witness :
    itemContribution ⟨"p", some 3, none⟩ = 0 :=
  C2_missing_field_contributes_zero.1 ⟨"p", some 3, none⟩ (Or.inr rfl)

/-- Claim C3: the derived-total recompute is a pure, idempotent function
of the line-item collection: re-running it on an unchanged collection
never changes the stored totalPrice. -/
theorem C3_recompute_idempotent :
    ∀ d : IncomeDraft, recomputeTotal (recomputeTotal d) = recomputeTotal d := by
  intro d
  simp [recomputeTotal]

/-- A supplier record (source `SupplierData`). -/
structure SupplierData where
  id : String
  name : String
  address : String
  phone_number : String
  email : String
  supplier_type : String
  status : Bool
  rnc : String
deriving Repr, DecidableEq

/-- The selectedSupplier useEffect's resolver:
`suppliers.find((s) => s.id === formik.values.origin.id) || null`;
`none` models the `null` sentinel. -/
def resolveSupplier (selId : String) (cache : List SupplierData) : Option SupplierData :=
  cache.find? (fun s => s.id == selId)

/-- The five dependent display inputs of the income form, whose values
are `selectedSupplier?.address` etc.: optional chaining on the sentinel
yields no value (rendered empty). -/
structure SupplierDisplay where
  address : Option String
  email : Option String
  rnc : Option String
  phone_number : Option String
  supplier_type : Option String
deriving Repr, DecidableEq

/-- Derivation of the display fields from the resolved supplier. -/
def supplierDisplayFields (sel : Option SupplierData) : SupplierDisplay :=
  { address := sel.map (fun s => s.address)
    email := sel.map (fun s => s.email)
    rnc := sel.map (fun s => s.rnc)
    phone_number := sel.map (fun s => s.phone_number)
    supplier_type := sel.map (fun s => s.supplier_type) }

/-- Claim C4: the resolver returns the cached entity whose id equals the
selected identifier, and the null sentinel when no cached entity matches
(including the empty cache); while the sentinel is active every
dependent display field renders empty, independent of any previously
resolved entity. -/
theorem C4_resolver_and_display :
    (∀ selId cache s, resolveSupplier selId cache = some s →
        s ∈ cache ∧ s.id = selId)
    ∧ (∀ selId cache, (∀ s ∈ cache, s.id ≠ selId) →
        resolveSupplier selId cache = none)
    ∧ (∀ selId, resolveSupplier selId [] = none)
    ∧ supplierDisplayFields none = ⟨none, none, none, none, none⟩ := by
  refine ⟨fun selId cache s h => ?_, fun selId cache h => ?_, fun selId => rfl, rfl⟩
  · exact ⟨List.mem_of_find?_eq_some h, by simpa using List.find?_some h⟩
  · exact List.find?_eq_none.mpr (fun s hs => by simpa using h s hs)

/-- Witness for C4 on a concrete one-element cache: the matching id
resolves to the entity, a non-matching id resolves to the sentinel. -/
theorem C4_resolver_and_display_witness :
    resolveSupplier "S1" [⟨"S1", "n", "a", "p", "e", "t", true, "r"⟩]
        = some ⟨"S1", "n", "a", "p", "e", "t", true, "r"⟩
    ∧ (⟨"S1", "n", "a", "p", "e", "t", true, "r"⟩ : SupplierData) ∈
        [(⟨"S1", "n", "a", "p", "e", "t", true, "r"⟩ : SupplierData)]
    ∧ resolveSupplier "S2" [⟨"S1", "n", "a", "p", "e", "t", true, "r"⟩] = none := by
  refine ⟨rfl, (C4_resolver_and_display.1 "S1"
      [⟨"S1", "n", "a", "p", "e", "t", true, "r"⟩]
      ⟨"S1", "n", "a", "p", "e", "t", true, "r"⟩ rfl).1, ?_⟩
  exact C4_resolver_and_display.2.1 "S2"
    [⟨"S1", "n", "a", "p", "e", "t", true, "r"⟩] (by decide)

/-- Outcome of the asynchronous id-existence lookup
`GET /incomes/income_id_exists/<id>`: either the request resolves with a
boolean payload, or it rejects (transport failure). -/
inductive LookupOutcome where
  | ok (found : Bool)
  | err
deriving Repr, DecidableEq

/-- The `unique_id` Yup test of the income validation schema:
`if (!value) return false; try { return !result.data.data } catch { return false }`. -/
def uniqueIdTest (value : String) (resp : LookupOutcome) : Bool :=
  if value = "" then false
  else
    match resp with
    | .ok found => !found
    | .err => false

/-- Claim C5: the uniqueness rule is fail-closed: it fails when the
backend reports the id exists, fails when the lookup itself fails, fails
on an empty id, and passes only when the backend successfully reports
the id does not exist. -/
theorem C5_unique_id_fail_closed :
    (∀ v, uniqueIdTest v (.ok true) = false)
    ∧ (∀ v, uniqueIdTest v .err = false)
    ∧ (∀ r, uniqueIdTest "" r = false)
    ∧ (∀ v, v ≠ "" → uniqueIdTest v (.ok false) = true)
    ∧ (∀ v r, uniqueIdTest v r = true → v ≠ "" ∧ r = .ok false) := by
  refine ⟨fun v => ?_, fun v => ?_, fun r => ?_, fun v hv => ?_, fun v r h => ?_⟩
  · by_cases hv : v = "" <;> simp [uniqueIdTest, hv]
  · by_cases hv : v = "" <;> simp [uniqueIdTest, hv]
  · simp [uniqueIdTest]
  · simp [uniqueIdTest, hv]
  · by_cases hv : v = ""
    · simp [uniqueIdTest, hv] at h
    · refine ⟨hv, ?_⟩
      cases r with
      | ok found => cases found <;> simp_all [uniqueIdTest]
      | err => simp [uniqueIdTest, hv] at h

/-- Witness for C5: the non-empty id "INC-1" passes exactly when the
backend reports it does not exist. -/
theorem C5_unique_id_fail_closed_witness :
    uniqueIdTest "INC-1" (.ok false) = true :=
  C5_unique_id_fail_closed.2.2.2.1 "INC-1" (by decide)

/-- The alert banner state of IncomeForm (`alertConfig`). -/
structure AlertConfig where
  visible : Bool
  color : String
  message : String
deriving Repr, DecidableEq

/-- The slice of IncomeForm component state touched by the nested
create-supplier flow: the supplier cache, the resolved selection, the
draft's origin.id field, the createSupplier modal flag and the alert. -/
structure IncomeFormState where
  suppliers : List SupplierData
  selectedSupplier : Option SupplierData
  originId : String
  createSupplierOpen : Bool
  alert : AlertConfig
deriving Repr, DecidableEq

/-- Outcome of the nested create-supplier request: on success the
backend returns the created record and the follow-up `fetchSuppliers`
returns the refreshed active-supplier list; otherwise the request
rejected. -/
inductive CreateSupplierOutcome where
  | success (created : SupplierData) (refreshed : List SupplierData)
  | failure
deriving Repr, DecidableEq

/-- The handleCreateSupplier handler: on success it stores the refetched supplier
list, selects the new supplier, writes `origin.id`, toggles the modal
and shows a success alert; on failure it toggles the modal and shows the
error alert via `handleError`. -/
def handleCreateSupplier (st : IncomeFormState) :
    CreateSupplierOutcome → IncomeFormState
  | .success created refreshed =>
      { st with
          suppliers := refreshed
          selectedSupplier := some created
          originId := created.id
          createSupplierOpen := !st.createSupplierOpen
          alert := ⟨true, "success", "Proveedor creado con éxito"⟩ }
  | .failure =>
      { st with
          createSupplierOpen := !st.createSupplierOpen
          alert := ⟨true, "danger",
            "Ha ocurrido un error al crear al proveedor, intentelo más tarde"⟩ }

/-- Claim C6: with the overlay open and the refetched list reflecting
the prior cache plus the created record, success adds exactly the new
supplier to the cache, selects it (origin.id set to its id) and closes
the overlay; failure closes the overlay and surfaces an error alert
while leaving the cache and the selection unchanged. -/
theorem C6_create_supplier_flow (st : IncomeFormState)
    (created : SupplierData) (refreshed : List SupplierData)
    (hopen : st.createSupplierOpen = true)
    (hfetch : refreshed = st.suppliers ++ [created]) :
    ((handleCreateSupplier st (.success created refreshed)).suppliers
        = st.suppliers ++ [created]
      ∧ (handleCreateSupplier st (.success created refreshed)).selectedSupplier
        = some created
      ∧ (handleCreateSupplier st (.success created refreshed)).originId = created.id
      ∧ (handleCreateSupplier st (.success created refreshed)).createSupplierOpen = false)
    ∧ ((handleCreateSupplier st .failure).suppliers = st.suppliers
      ∧ (handleCreateSupplier st .failure).selectedSupplier = st.selectedSupplier
      ∧ (handleCreateSupplier st .failure).originId = st.originId
      ∧ (handleCreateSupplier st .failure).createSupplierOpen = false
      ∧ (handleCreateSupplier st .failure).alert.visible = true
      ∧ (handleCreateSupplier st .failure).alert.color = "danger") := by
  subst hfetch
  simp [handleCreateSupplier, hopen]

/-- Witness for C6 at a concrete open-overlay state and created
supplier. -/
theorem C6_create_supplier_flow_witness :
    (handleCreateSupplier ⟨[], none, "", true, ⟨false, "", ""⟩⟩
        (.success ⟨"S1", "n", "a", "p", "e", "t", true, "r"⟩
          [⟨"S1", "n", "a", "p", "e", "t", true, "r"⟩])).suppliers
      = [⟨"S1", "n", "a", "p", "e", "t", true, "r"⟩]
    ∧ (handleCreateSupplier ⟨[], none, "", true, ⟨false, "", ""⟩⟩ .failure).suppliers
      = [] := by
  have h := C6_create_supplier_flow ⟨[], none, "", true, ⟨false, "", ""⟩⟩
    ⟨"S1", "n", "a", "p", "e", "t", true, "r"⟩
    [⟨"S1", "n", "a", "p", "e", "t", true, "r"⟩] rfl rfl
  exact ⟨h.1.1, h.2.1⟩

/-- How the awaited `onSubmit(values)` promise settles. -/
inductive SubmitOutcome where
  | resolved
  | rejected
deriving Repr, DecidableEq

/-- The slice of IncomeForm state touched by its formik `onSubmit`
handler. -/
structure IncomeSubmitState where
  values : IncomeDraft
  isSubmitting : Bool
  alert : AlertConfig
deriving Repr, DecidableEq

/-- IncomeForm's formik `onSubmit`: `setSubmitting(true)`, awaits the
collaborator, on rejection only logs to the console, and in `finally`
runs `setSubmitting(false)`; the values are never reset and the alert is
never touched on either path. -/
def incomeOnSubmit (st : IncomeSubmitState) : SubmitOutcome → IncomeSubmitState
  | .resolved => { st with isSubmitting := false }
  | .rejected => { st with isSubmitting := false }

/-- The slice of SupplierForm state touched by its formik `onSubmit`
handler. -/
structure SupplierSubmitState where
  values : SupplierData
  isSubmitting : Bool
  showErrorAlert : Bool
deriving Repr, DecidableEq

/-- SupplierForm's formik `onSubmit`: on rejection sets
`showErrorAlert(true)`; in `finally` runs `setSubmitting(false)` and
schedules `setShowErrorAlert(false)` after 5000 ms (the returned
delay). -/
def supplierOnSubmit (st : SupplierSubmitState) :
    SubmitOutcome → SupplierSubmitState × Nat
  | .resolved => ({ st with isSubmitting := false }, 5000)
  | .rejected => ({ st with isSubmitting := false, showErrorAlert := true }, 5000)

/-- The scheduled `setShowErrorAlert(false)` callback. -/
def dismissSupplierAlert (st : SupplierSubmitState) : SupplierSubmitState :=
  { st with showErrorAlert := false }

/-- Claim C7: when the submission collaborator reports an error, both
forms return to editing (isSubmitting false) with every field value of
the draft unchanged — the draft is never reset on failure. -/
theorem C7_failed_submit_preserves_draft :
    (∀ st : IncomeSubmitState,
        (incomeOnSubmit st .rejected).values = st.values
        ∧ (incomeOnSubmit st .rejected).isSubmitting = false)
    ∧ (∀ st : SupplierSubmitState,
        (supplierOnSubmit st .rejected).1.values = st.values
        ∧ (supplierOnSubmit st .rejected).1.isSubmitting = false) := by
  exact ⟨fun st => ⟨rfl, rfl⟩, fun st => ⟨rfl, rfl⟩⟩

/-- Counterexample to claim C8 as stated: a failed income-form
submission from a state with no visible alert leaves the alert
invisible — the income form surfaces no notification on submission
failure (its handler only logs to the console). -/
theorem C8_counterexample_income_no_alert :
    (incomeOnSubmit ⟨initialIncomeDraft, true, ⟨false, "", ""⟩⟩ .rejected).alert
      = ⟨false, "", ""⟩ := rfl

/-- Claim C8 as amended: a submission failure in the supplier form
surfaces an error notification scheduled to auto-dismiss after 5000 ms;
the income form's own submit handler surfaces no notification, leaving
its alert state unchanged. -/
theorem C8_failure_notification_amended :
    (∀ st : SupplierSubmitState,
        (supplierOnSubmit st .rejected).1.showErrorAlert = true
        ∧ (supplierOnSubmit st .rejected).2 = 5000
        ∧ (dismissSupplierAlert (supplierOnSubmit st .rejected).1).showErrorAlert
          = false)
    ∧ (∀ st : IncomeSubmitState, (incomeOnSubmit st .rejected).alert = st.alert) := by
  exact ⟨fun st => ⟨rfl, rfl, rfl⟩, fun st => rfl⟩

/-- The submit button's `disabled={formik.isSubmitting}` attribute,
identical in both forms. -/
def submitTriggerDisabled (isSubmitting : Bool) : Bool := isSubmitting

/-- Events of one form instance: the user presses the submit trigger, or
an in-flight submission settles (the `finally` block runs
`setSubmitting(false)`). -/
inductive FormEvent where
  | pressSubmit
  | settle
deriving Repr, DecidableEq

/-- Observable submission state of one form instance: formik's
`isSubmitting` flag and the number of submissions currently in
flight. -/
structure SubmitMachine where
  isSubmitting : Bool
  inFlight : Nat
deriving Repr, DecidableEq

/-- A fresh form: not submitting, nothing in flight. -/
def initialMachine : SubmitMachine := ⟨false, 0⟩

/-- One event step: a press on a disabled trigger does nothing; an
enabled press starts a submission (formik sets `isSubmitting` before the
await); a settle completes one in-flight submission and clears
`isSubmitting` in the `finally` block. -/
def formStep (m : SubmitMachine) : FormEvent → SubmitMachine
  | .pressSubmit =>
      if submitTriggerDisabled m.isSubmitting then m
      else { isSubmitting := true, inFlight := m.inFlight + 1 }
  | .settle =>
      if m.inFlight = 0 then m
      else { isSubmitting := false, inFlight := m.inFlight - 1 }

/-- Run a form instance over a sequence of events. -/
def runForm (evs : List FormEvent) : SubmitMachine :=
  evs.foldl formStep initialMachine

/-- The in-flight count always matches the `isSubmitting` flag. -/
def flagTracksFlight (m : SubmitMachine) : Prop :=
  m.inFlight = if m.isSubmitting then 1 else 0

lemma formStep_preserves (m : SubmitMachine) (e : FormEvent)
    (h : flagTracksFlight m) : flagTracksFlight (formStep m e) := by
  cases e with
  | pressSubmit =>
    by_cases hs : m.isSubmitting <;>
      simp_all [formStep, submitTriggerDisabled, flagTracksFlight, hs]
  | settle =>
    by_cases hs : m.isSubmitting <;>
      simp_all [formStep, flagTracksFlight, hs]

lemma foldl_formStep_preserves (evs : List FormEvent) :
    ∀ m : SubmitMachine, flagTracksFlight m →
      flagTracksFlight (evs.foldl formStep m) := by
  induction evs with
  | nil => intro m h; simpa using h
  | cons e evs ih =>
    intro m h
    simpa [List.foldl_cons] using ih (formStep m e) (formStep_preserves m e h)

/-- Claim C9: within one form instance at most one submission is ever in
flight — in every state reachable from the fresh form, the in-flight
count is at most 1, because the submit trigger is disabled while
`isSubmitting` is true. -/
theorem C9_single_submission_in_flight :
    ∀ evs : List FormEvent, (runForm evs).inFlight ≤ 1 := by
  intro evs
  have h := foldl_formStep_preserves evs initialMachine (by rfl)
  rw [flagTracksFlight] at h
  rw [runForm, h]
  by_cases hs : (evs.foldl formStep initialMachine).isSubmitting <;> simp [hs]

/-- Per-row action availability in the product catalog: the details
button carries no `disabled` attribute, while the update and delete
buttons are `disabled={row.status !== true}`. -/
structure ProductRowActions where
  detailsDisabled : Bool
  updateDisabled : Bool
  deleteDisabled : Bool
deriving Repr, DecidableEq

/-- The action-column render of ViewProducts for a row with the given
status flag. -/
def productRowActions (status : Bool) : ProductRowActions :=
  { detailsDisabled := false
    updateDisabled := status != true
    deleteDisabled := status != true }

/-- Claim C10: for every product row whose status is not true, the
update and delete actions are disabled and only the details action
remains available. -/
theorem C10_inactive_row_actions (status : Bool) (h : status ≠ true) :
    (productRowActions status).updateDisabled = true
    ∧ (productRowActions status).deleteDisabled = true
    ∧ (productRowActions status).detailsDisabled = false := by
  cases status with
  | false => exact ⟨rfl, rfl, rfl⟩
  | true => exact absurd rfl h

/-- Witness for C10 at the inactive status. -/
theorem C10_inactive_row_actions_witness :
    (productRowActions false).updateDisabled = true
    ∧ (productRowActions false).deleteDisabled = true
    ∧ (productRowActions false).detailsDisabled = false :=
  C10_inactive_row_actions false (by decide)

end MFarm
